import Mathlib

/-!
Verification of the Idle-Bot control-panel program (`app.py`): a shallow
embedding of its configuration store, log sink, permission check, HTTP
handlers, credential-file update and bot lifecycle, with theorems checking
the natural-language specification against the code.

Python strings are modeled as Lean `String`; operations that the Lean
library implements by non-reducing internals (lower-casing, prefix tests,
lexicographic comparison) are re-implemented over the character list so
that every definition evaluates inside the kernel.
-/

namespace IdleBot

/-- Models Python str.lower (ASCII case fold, which is all the program's
channel names need): lower-case every character. -/
def pyLower (s : String) : String := ⟨s.data.map Char.toLower⟩

/-- Lexicographic comparison of character lists by code point; models
Python string `<=` as used by list.sort on the lowered sort key. -/
def lexLe : List Char → List Char → Bool
  | [], _ => true
  | _ :: _, [] => false
  | a :: as, b :: bs => if a < b then true else if b < a then false else lexLe as bs

/-- Models Python str.startswith. -/
def pyStartsWith (s p : String) : Bool := p.data.isPrefixOf s.data

/-- Substring test over character lists; models the Python `in` operator on
strings. -/
def containsSub (hay needle : List Char) : Bool :=
  needle.isPrefixOf hay ||
    match hay with
    | [] => false
    | _ :: t => containsSub t needle

/-- Models the truthiness test Python applies to an optional string taken
from a JSON body or query string: `None` and the empty string are falsy. -/
def pyFalsy : Option String → Bool
  | none => true
  | some s => s == ""

/-- Decimal digit value, for the model of Python int(). -/
def digitVal (c : Char) : Option Nat :=
  if '0' ≤ c ∧ c ≤ '9' then some (c.toNat - '0'.toNat) else none

/-- Parse a nonempty all-digit character list. -/
def digitsToNat : List Char → Option Nat
  | [] => none
  | l => l.foldl (fun acc c => match acc, digitVal c with
      | some n, some d => some (n * 10 + d)
      | _, _ => none) (some 0)

/-- Models Python int(str): an optional sign followed by decimal digits;
anything else raises ValueError, modeled as `none`. -/
def pyToInt (s : String) : Option Int :=
  match s.data with
  | '-' :: rest => (digitsToNat rest).map (fun n => -(n : Int))
  | l => (digitsToNat l).map (fun n => (n : Int))

/-! ConfigStore (`SERVER_CONFIGS`, `load_configs`, `save_configs`) -/

/-- One guild's record as the running program keeps it: every code path
that creates an entry supplies both keys, and `load_configs` defaults
`allowed_users`, so at runtime the field is always present (`channel_id`
absent and `channel_id = None` behave identically downstream and are both
modeled as `none`). -/
structure GuildConfig where
  channel_id : Option Int
  allowed_users : List Int
deriving DecidableEq

/-- `SERVER_CONFIGS`: a Python dict with string keys, i.e. an
insertion-ordered association list with unique keys. -/
abbrev Configs := List (String × GuildConfig)

/-- Python dict assignment `m[k] = v`: replace the value at an existing
key in place, else append a new entry. -/
def dictSet (m : List (String × GuildConfig)) (k : String) (v : GuildConfig) :
    List (String × GuildConfig) :=
  if (m.lookup k).isSome then
    m.map fun p => if p.1 == k then (k, v) else p
  else
    m ++ [(k, v)]

/-- One guild entry as it sits in the JSON file, where `allowed_users`
may be absent. -/
structure RawGuildConfig where
  channel_id : Option Int
  allowed_users : Option (List Int)
deriving DecidableEq

/-- What json.loads can hand back on success: a JSON object (read as the
guild-config mapping) or any other JSON value (array, string, number,
boolean, null) — the latter is not a dict and has no `.keys()`. -/
inductive PyJson where
  | obj (entries : List (String × RawGuildConfig))
  | nonObj
deriving DecidableEq

/-- The config file on disk: missing, or present with some text. -/
inductive FileState where
  | missing
  | content (s : String)
deriving DecidableEq

/-- The defaulting loop of `load_configs`: insert `allowed_users = []`
when the key is absent; `channel_id` is left as it is. -/
def defaultGuildConfig (r : RawGuildConfig) : GuildConfig :=
  { channel_id := r.channel_id, allowed_users := r.allowed_users.getD [] }

/-- `load_configs`. json.loads is out-of-scope library code and is passed
in as `parse`; `parse s = none` models a raised JSONDecodeError (caught:
warning printed, empty config). The Bool in the result records whether the
corruption warning was printed. `.error ()` models the uncaught
AttributeError raised by `configs.keys()` when the file parses to a JSON
value that is not an object. -/
def load_configs (parse : String → Option PyJson) : FileState → Except Unit (Configs × Bool)
  | .missing => .ok ([], false)
  | .content s =>
    if s = "" then .ok ([], false)
    else
      match parse s with
      | none => .ok ([], true)
      | some (.obj entries) =>
          .ok (entries.map (fun p => (p.1, defaultGuildConfig p.2)), false)
      | some .nonObj => .error ()

/-- The mutable configuration state: the in-memory `SERVER_CONFIGS` dict
and the last contents flushed to server_configs.json by `save_configs`
(`none` = the file was never written). -/
structure ConfigState where
  configs : Configs
  savedFile : Option Configs
deriving DecidableEq

/-! LogSink (`global_logs`, `log_to_global`) -/

/-- `log_to_global`, list-maintenance part: append the timestamped line
(the `entry` argument stands for the already-formatted line), then
`pop(0)` the oldest entry when the length exceeds 50. -/
def log_to_global {α : Type _} (entry : α) (logs : List α) : List α :=
  let l := logs ++ [entry]
  if 50 < l.length then l.drop 1 else l

/-- The log list produced by a sequence of appends starting from the
initial empty `global_logs`. -/
def run_log {α : Type _} (msgs : List α) : List α :=
  msgs.foldl (fun logs m => log_to_global m logs) []

/-! PermissionGate (`is_admin_or_allowed`) -/

/-- The predicate inside `is_admin_or_allowed`: administrator permission,
or membership in the guild's `allowed_users` list. It only reads the
store, so it is a pure function of the configs. -/
def is_admin_or_allowed (administrator : Bool) (author_id : Int) (guild_id_str : String)
    (configs : Configs) : Bool :=
  if administrator then true
  else
    match configs.lookup guild_id_str with
    | some cfg => cfg.allowed_users.contains author_id
    | none => false

/-! The adduser command body (`add_user_to_config`) -/

inductive AddUserOutcome where
  | alreadyAllowed
  | added
deriving DecidableEq

/-- `add_user_to_config` (the `.adduser` command body, after the
owner-only check): create the guild record if absent, refuse when the
member is already allowed (no append, no save), else append the member id
and flush with `save_configs`. The outcome stands for the chat reply. -/
def add_user_to_config (member_id : Int) (guild_id_str : String) (st : ConfigState) :
    AddUserOutcome × ConfigState :=
  let configs :=
    if (st.configs.lookup guild_id_str).isSome then st.configs
    else dictSet st.configs guild_id_str { channel_id := none, allowed_users := [] }
  let cfg := (configs.lookup guild_id_str).getD { channel_id := none, allowed_users := [] }
  if cfg.allowed_users.contains member_id then
    (.alreadyAllowed, { st with configs := configs })
  else
    let configs2 := dictSet configs guild_id_str
      { channel_id := cfg.channel_id, allowed_users := cfg.allowed_users ++ [member_id] }
    (.added, { configs := configs2, savedFile := some configs2 })

/-! BotEngine capability surface and the Bridge-backed HTTP handlers -/

/-- A guild voice channel together with the permissions the engine's
member (`guild.me`) has on it, as `channel.permissions_for(guild.me)`
reports them. -/
structure PyVoiceChannel where
  id : Int
  name : String
  view_channel : Bool
  voice_connect : Bool
deriving DecidableEq

/-- The case-insensitive name order used as sort key:
`x['name'].lower()` compared as Python strings. -/
def channelSortKeyLe (a b : Int × String) : Prop :=
  lexLe (pyLower a.2).data (pyLower b.2).data = true

instance : DecidableRel channelSortKeyLe := fun a b => by
  unfold channelSortKeyLe; infer_instance

/-- The list-building body of the /api/get_voice_channels handler
(lines 215-226): keep the guild's voice channels where the bot can view
and connect, emit id plus the "🔊 "-prefixed name, and sort by
lower-cased name. Python's list.sort is a stable sort by that key, which
the stable `List.insertionSort` reproduces exactly. -/
def get_voice_channels_list (voice_channels : List PyVoiceChannel) : List (Int × String) :=
  let channel_list :=
    (voice_channels.filter fun c => c.view_channel && c.voice_connect).map
      fun c => (c.id, "🔊 " ++ c.name)
  List.insertionSort channelSortKeyLe channel_list

/-- A channel as `bot.fetch_channel` can return it, with the permission
bits and failure modes the handlers consult. `fetch_forbidden` marks a
channel whose fetch raises Forbidden. -/
structure PyChannel where
  id : Int
  name : String
  guild_id : Int
  guild_name : String
  is_voice : Bool
  can_send : Bool
  view_channel : Bool
  voice_connect : Bool
  fetch_forbidden : Bool
deriving DecidableEq

/-- A guild as the engine's cache and `fetch_guild` expose it. -/
structure PyGuild where
  id : Int
  name : String
  voice_channels : List PyVoiceChannel
  fetch_forbidden : Bool
deriving DecidableEq

/-- The live bot client: `ready` is `is_ready()`; the guild and channel
lists stand for the engine's view of the platform. -/
structure Engine where
  ready : Bool
  guilds : List PyGuild
  channels : List PyChannel
deriving DecidableEq

/-- The process state the HTTP handlers read and write: the
`bot_instance` global, the ConfigStore with its flushed file, a count of
coroutines submitted to `bot_loop` via run_coroutine_threadsafe, the
messages sent, and the per-guild voice connection. -/
structure SysState where
  bot_instance : Option Engine
  configs : Configs
  savedFile : Option Configs
  scheduled : Nat
  messages : List (Int × Option String × Option String)
  voice : List (Int × Int)
deriving DecidableEq

/-- An HTTP response: the success flag and message of the JSON body, the
status code, and the `channels` payload where the endpoint has one. -/
structure HttpResp where
  success : Bool
  message : String
  status : Nat
  channels : List (Int × String)
deriving DecidableEq

/-- The response every Bridge-backed endpoint returns when `bot_instance`
is absent or not ready. -/
def offlineResp : HttpResp := ⟨false, "Bot is offline.", 400, []⟩

def get_guild (e : Engine) (gid : Int) : Option PyGuild :=
  e.guilds.find? fun g => g.id == gid

inductive FetchErr where
  | notFound
  | forbidden
deriving DecidableEq

def fetch_channel (e : Engine) (cid : Int) : Except FetchErr PyChannel :=
  match e.channels.find? (fun c => c.id == cid) with
  | none => .error .notFound
  | some c => if c.fetch_forbidden then .error .forbidden else .ok c

def fetch_guild (e : Engine) (gid : Int) : Except FetchErr PyGuild :=
  match e.guilds.find? (fun g => g.id == gid) with
  | none => .error .notFound
  | some g => if g.fetch_forbidden then .error .forbidden else .ok g

/-- GET /api/get_voice_channels. Offline guard, required-argument check,
then guild lookup and the filtered, sorted channel list; int(guild_id)
raising ValueError is caught by the generic handler (500). -/
def get_voice_channels_api (guild_id_arg : Option String) (s : SysState) :
    HttpResp × SysState :=
  match s.bot_instance with
  | none => (offlineResp, s)
  | some eng =>
    if !eng.ready then (offlineResp, s)
    else if pyFalsy guild_id_arg then (⟨false, "Guild ID is required.", 400, []⟩, s)
    else
      match pyToInt (guild_id_arg.getD "") with
      | none => (⟨false, "invalid literal for int()", 500, []⟩, s)
      | some gid =>
        match get_guild eng gid with
        | none => (⟨false, "Guild not found.", 404, []⟩, s)
        | some guild =>
            (⟨true, "", 200, get_voice_channels_list guild.voice_channels⟩, s)

/-- POST /api/send_message. Offline guard and input validation on the
request thread; then `fetch_and_send` is submitted to `bot_loop`
(counted in `scheduled`) and its result awaited: fetch the channel,
check the send permission, send content and/or image embed. -/
def send_message (channel_id content image_url : Option String) (s : SysState) :
    HttpResp × SysState :=
  match s.bot_instance with
  | none => (offlineResp, s)
  | some eng =>
    if !eng.ready then (offlineResp, s)
    else if pyFalsy channel_id then (⟨false, "Channel ID is required.", 400, []⟩, s)
    else if pyFalsy content && pyFalsy image_url then
      (⟨false, "Message content or Image URL is required.", 400, []⟩, s)
    else
      let s1 := { s with scheduled := s.scheduled + 1 }
      match pyToInt (channel_id.getD "") with
      | none => (⟨false, "An error occurred: invalid literal for int()", 500, []⟩, s1)
      | some cid =>
        match fetch_channel eng cid with
        | .error .notFound => (⟨false, "Channel not found. Check the ID.", 500, []⟩, s1)
        | .error .forbidden =>
            (⟨false, "Bot does not have permission to send messages in that channel.", 500, []⟩, s1)
        | .ok ch =>
          if !ch.can_send then
            (⟨false, "Bot does not have permission to send messages in that channel.", 500, []⟩, s1)
          else
            let sent := (cid, (if pyFalsy content then none else content), image_url)
            (⟨true, "Message sent successfully to #" ++ ch.name ++ ".", 200, []⟩,
             { s1 with messages := s1.messages ++ [sent] })

/-- POST /api/set_vc_channel. Offline guard and input validation; then
`fetch_and_set` runs on `bot_loop`: parse the id (ValueError handled),
fetch and type-check the channel, write the guild record and flush with
`save_configs`. -/
def set_vc_channel_api (guild_id channel_id : Option String) (s : SysState) :
    HttpResp × SysState :=
  match s.bot_instance with
  | none => (offlineResp, s)
  | some eng =>
    if !eng.ready then (offlineResp, s)
    else if pyFalsy guild_id || pyFalsy channel_id then
      (⟨false, "Guild ID and Channel ID are required.", 400, []⟩, s)
    else
      let s1 := { s with scheduled := s.scheduled + 1 }
      match pyToInt (channel_id.getD "") with
      | none => (⟨false, "Error: Channel ID must be a number.", 500, []⟩, s1)
      | some cid =>
        let guild_id_str := guild_id.getD ""
        match fetch_channel eng cid with
        | .error .notFound => (⟨false, "Error: Channel ID not found.", 500, []⟩, s1)
        | .error .forbidden => (⟨false, "An error occurred: Forbidden", 500, []⟩, s1)
        | .ok ch =>
          if !ch.is_voice then
            (⟨false, "Error: #" ++ ch.name ++ " is not a Voice Channel.", 500, []⟩, s1)
          else
            let cfg := (s1.configs.lookup guild_id_str).getD
              { channel_id := none, allowed_users := [] }
            let configs2 := dictSet s1.configs guild_id_str
              { channel_id := some cid, allowed_users := cfg.allowed_users }
            (⟨true, "Success! Default VC for " ++ ch.guild_name ++ " set to " ++ ch.name ++ ".",
               200, []⟩,
             { s1 with configs := configs2, savedFile := some configs2 })

/-- POST /api/force_join_vc. Offline guard and input validation; then
`fetch_and_join` runs on `bot_loop`: parse ids, fetch the guild and the
channel, check channel type, guild match and view/connect permissions,
then move the existing voice client or connect a new one. -/
def force_join_vc_api (guild_id channel_id : Option String) (s : SysState) :
    HttpResp × SysState :=
  match s.bot_instance with
  | none => (offlineResp, s)
  | some eng =>
    if !eng.ready then (offlineResp, s)
    else if pyFalsy guild_id || pyFalsy channel_id then
      (⟨false, "Guild ID and Channel ID are required.", 400, []⟩, s)
    else
      let s1 := { s with scheduled := s.scheduled + 1 }
      match pyToInt (channel_id.getD ""), pyToInt (guild_id.getD "") with
      | none, _ => (⟨false, "Error: Channel/Guild ID must be a number.", 500, []⟩, s1)
      | _, none => (⟨false, "Error: Channel/Guild ID must be a number.", 500, []⟩, s1)
      | some cid, some gid =>
        match fetch_guild eng gid with
        | .error .notFound =>
            (⟨false, "Error: Guild ID not found. (Bot may not be in this server)", 500, []⟩, s1)
        | .error .forbidden =>
            (⟨false, "Error: Bot forbidden from fetching guild (permissions issue).", 500, []⟩, s1)
        | .ok guild =>
          match fetch_channel eng cid with
          | .error .notFound =>
              (⟨false, "Error: Channel ID not found. (Check ID or bot permissions)", 500, []⟩, s1)
          | .error .forbidden =>
              (⟨false, "Error: Bot forbidden from fetching channel (permissions issue).", 500, []⟩, s1)
          | .ok ch =>
            if !ch.is_voice then
              (⟨false, "Error: " ++ ch.name ++ " is not a Voice Channel.", 500, []⟩, s1)
            else if ch.guild_id != guild.id then
              (⟨false, "Error: Channel " ++ ch.name ++ " is not in the selected server.", 500, []⟩, s1)
            else if !ch.view_channel then
              (⟨false, "Error: Bot does not have permission to view " ++ ch.name ++ ".", 500, []⟩, s1)
            else if !ch.voice_connect then
              (⟨false, "Error: Bot does not have permission to connect to " ++ ch.name ++ ".", 500, []⟩, s1)
            else
              let already := (s1.voice.lookup guild.id).isSome
              let voice2 :=
                if already then s1.voice.map (fun p => if p.1 == guild.id then (guild.id, cid) else p)
                else s1.voice ++ [(guild.id, cid)]
              (⟨true, (if already then "Moved to " else "Joined ") ++ ch.name ++ ".", 200, []⟩,
               { s1 with voice := voice2 })

/-! Credential file (`update_dotenv_token`) and bot lifecycle -/

/-- `update_dotenv_token`. The .env file is the line list that
readlines() yields, each line keeping its trailing newline; a missing
file gets the two default lines. Every line starting with
`DISCORD_TOKEN=` is rewritten to the new token, other lines are kept;
when no line matched, `'\nDISCORD_TOKEN=<token>\n'` is appended. -/
def update_dotenv_token (new_token : String) (dotenv : Option (List String)) : List String :=
  let lines := dotenv.getD
    ["# .env file generated by bot panel\n", "DISCORD_TOKEN=YOUR_BOT_TOKEN_HERE\n"]
  let updated_lines := lines.map fun line =>
    if pyStartsWith line "DISCORD_TOKEN=" then "DISCORD_TOKEN=" ++ new_token ++ "\n" else line
  let token_updated := lines.any fun line => pyStartsWith line "DISCORD_TOKEN="
  if token_updated then updated_lines else updated_lines ++ ["\nDISCORD_TOKEN=" ++ new_token ++ "\n"]

/-- A BotSession handle: the credential it runs with and a fresh id that
distinguishes it from every earlier session object. -/
structure SessionRef where
  token : String
  sessionId : Nat
deriving DecidableEq

/-- The lifecycle-relevant module globals: `bot_thread`, `bot_instance`,
`bot_loop`, the .env file, the token of a started thread whose
`run_bot_client` body has not run yet (`pending_run`), and a counter
supplying fresh thread/session ids. -/
structure GlobalState where
  bot_thread : Option Nat
  bot_instance : Option SessionRef
  bot_loop : Option Nat
  dotenv : Option (List String)
  pending_run : Option String
  next_id : Nat
deriving DecidableEq

/-- Observable lifecycle events, in the order the code performs them. -/
inductive Ev where
  | closeOldSession
  | clearGlobals
  | startNewThread
  | persistToken (token : String)
  | logLine (msg : String)
deriving DecidableEq

/-- `a` occurs strictly before `b` in the trace (both present). -/
def precedes (tr : List Ev) (a b : Ev) : Bool :=
  tr.contains a && tr.contains b && (tr.indexOf a < tr.indexOf b)

/-- `stop_bot_client`: when both `bot_instance` and `bot_loop` are set,
submit close() to the old loop, join the thread, and in the finally
block clear all three globals and log; otherwise return immediately
(returns True either way). -/
def stop_bot_client (g : GlobalState) : GlobalState × List Ev :=
  match g.bot_instance, g.bot_loop with
  | some _, some _ =>
    ({ g with bot_thread := none, bot_instance := none, bot_loop := none },
     [.closeOldSession, .clearGlobals, .logLine "🛑 Bot client stopped."])
  | _, _ => (g, [])

/-- `run_bot_client`, the new thread's body: refuse an empty or
placeholder token (log, no bot), else build the client and run it,
installing the new session in `bot_instance`. -/
def run_bot_client (token : String) (g : GlobalState) : GlobalState × List Ev :=
  if token == "" || containsSub token.data "YOUR_BOT_TOKEN_HERE".data then
    ({ g with pending_run := none },
     [.logLine "❌ ERROR: DISCORD_TOKEN not configured. Bot will not run."])
  else
    ({ g with
        pending_run := none
        bot_instance := some ⟨token, g.next_id⟩
        next_id := g.next_id + 1 }, [])

/-- POST /api/restart. Reject a missing/empty token; otherwise stop the
current client, start the new daemon thread for
`run_bot_client(new_token)`, then persist the token to .env and
return success immediately. -/
def restart_bot_api (token : Option String) (g : GlobalState) :
    HttpResp × GlobalState × List Ev :=
  if pyFalsy token then (⟨false, "No new token provided.", 400, []⟩, g, [])
  else
    let new_token := token.getD ""
    let p := stop_bot_client g
    let g2 := { p.1 with
                 bot_thread := some p.1.next_id
                 pending_run := some new_token
                 next_id := p.1.next_id + 1 }
    let g3 := { g2 with dotenv := some (update_dotenv_token new_token g2.dotenv) }
    (⟨true, "Bot restart initiated. Check logs for status.", 200, []⟩, g3,
     p.2 ++ [.startNewThread, .persistToken new_token,
             .logLine "🔄 Bot restart initiated with new token..."])

/-! Shared-state effects and loop-level interleaving of the
ConfigStore writers -/

/-- The primitive shared-state effects a ConfigStore mutation performs,
including lock primitives so that the presence or absence of mutual
exclusion in a code path is expressible. -/
inductive Effect where
  | lockAcquire
  | lockRelease
  | readConfigs
  | writeConfigs
  | flushFile
  | awaitPoint
deriving DecidableEq

/-- Effects of `save_configs` (lines 38-41): open and rewrite the JSON
file; no lock. -/
def save_configs_effects : List Effect := [.flushFile]

/-- Effects of the `add_user_to_config` command body (lines 96-103): read
`SERVER_CONFIGS`, write the record, flush — with no lock operation and no
await between the read and the flush. -/
def add_user_effects : List Effect := [.readConfigs, .writeConfigs, .flushFile]

/-- Effects of `fetch_and_set` (lines 307-327): one awaited library call
(`fetch_channel`), then read `SERVER_CONFIGS`, write the record, flush —
with no lock operation and no await inside the read-modify-write-flush. -/
def fetch_and_set_effects : List Effect := [.awaitPoint, .readConfigs, .writeConfigs, .flushFile]

/-- The config mutation inside `fetch_and_set` (write `channel_id`,
keep `allowed_users`, flush). -/
def set_channel_config (guild_id_str : String) (cid : Int) (st : ConfigState) : ConfigState :=
  let cfg := (st.configs.lookup guild_id_str).getD { channel_id := none, allowed_users := [] }
  let configs2 := dictSet st.configs guild_id_str
    { channel_id := some cid, allowed_users := cfg.allowed_users }
  { configs := configs2, savedFile := some configs2 }

/-- An atomic block of a task on the bot's event loop: everything a
coroutine does between two awaits runs without interleaving. `libAwait`
is an awaited library call with no ConfigStore effect. -/
inductive LoopBlock where
  | libAwait
  | addUserBlock (guild_id_str : String) (member_id : Int)
  | setChannelBlock (guild_id_str : String) (cid : Int)
deriving DecidableEq

def runBlock (st : ConfigState) : LoopBlock → ConfigState
  | .libAwait => st
  | .addUserBlock gu u => (add_user_to_config u gu st).2
  | .setChannelBlock gu c => set_channel_config gu c st

def runBlocks (bs : List LoopBlock) (st : ConfigState) : ConfigState :=
  bs.foldl runBlock st

/-- Fuel-driven worker for `interleavings` (structural recursion on the
fuel so that it evaluates inside the kernel). -/
def interleavingsAux {α : Type _} : Nat → List α → List α → List (List α)
  | _, [], ys => [ys]
  | _, x :: xs, [] => [x :: xs]
  | 0, _, _ => []
  | n + 1, x :: xs, y :: ys =>
      (interleavingsAux n xs (y :: ys)).map (x :: ·) ++
      (interleavingsAux n (x :: xs) ys).map (y :: ·)

/-- All interleavings of two tasks' block lists: the event loop may pick
either task's next block at each step. -/
def interleavings {α : Type _} (xs ys : List α) : List (List α) :=
  interleavingsAux (xs.length + ys.length) xs ys

/-- The `.adduser` command handler as a loop task: its whole mutation is
one await-free block. -/
def addUserTask (guild_id_str : String) (member_id : Int) : List LoopBlock :=
  [.addUserBlock guild_id_str member_id]

/-- `fetch_and_set` as a loop task: the awaited `fetch_channel`, then the
await-free mutation block. -/
def setChannelTask (guild_id_str : String) (cid : Int) : List LoopBlock :=
  [.libAwait, .setChannelBlock guild_id_str cid]

/-! Helper lemmas -/

theorem lookup_map_set (m : Configs) (k : String) (v : GuildConfig)
    (h : (m.lookup k).isSome) :
    (m.map fun p => if p.1 == k then (k, v) else p).lookup k = some v := by
  induction m with
  | nil => simp [List.lookup] at h
  | cons p es ih =>
    obtain ⟨a, b⟩ := p
    by_cases hak : a = k
    · subst hak
      simp only [List.map_cons, beq_self_eq_true, if_true, List.lookup_cons]
    · have h1 : (a == k) = false := beq_eq_false_iff_ne.mpr hak
      have h2 : (k == a) = false := beq_eq_false_iff_ne.mpr (Ne.symm hak)
      simp only [List.lookup_cons, h2, cond_false] at h
      simp only [List.map_cons, h1, Bool.false_eq_true, if_false, List.lookup_cons, h2,
        cond_false]
      exact ih h

theorem lookup_append_single (m : Configs) (k : String) (v : GuildConfig)
    (h : m.lookup k = none) :
    (m ++ [(k, v)]).lookup k = some v := by
  induction m with
  | nil => simp [List.lookup]
  | cons p es ih =>
    obtain ⟨a, b⟩ := p
    by_cases hka : (k == a) = true
    · simp only [List.lookup_cons, hka] at h
      simp at h
    · have h2 : (k == a) = false := by simpa using hka
      simp only [List.lookup_cons, h2, cond_false] at h
      simp only [List.cons_append, List.lookup_cons, h2, cond_false]
      exact ih h

theorem lookup_dictSet_self (m : Configs) (k : String) (v : GuildConfig) :
    (dictSet m k v).lookup k = some v := by
  unfold dictSet
  by_cases h : (m.lookup k).isSome
  · simp only [h, if_true]
    exact lookup_map_set m k v h
  · simp only [h, Bool.false_eq_true, if_false]
    exact lookup_append_single m k v (by
      cases hl : m.lookup k
      · rfl
      · rw [hl] at h; simp at h)

theorem run_log_append {α : Type _} (ms : List α) (m : α) :
    run_log (ms ++ [m]) = log_to_global m (run_log ms) := by
  unfold run_log
  rw [List.foldl_append]
  rfl

theorem run_log_eq_drop {α : Type _} (msgs : List α) :
    run_log msgs = msgs.drop (msgs.length - 50) := by
  induction msgs using List.reverseRecOn with
  | nil => rfl
  | append_singleton ms m ih =>
    rw [run_log_append, ih]
    show (if 50 < (List.drop (ms.length - 50) ms ++ [m]).length
          then (List.drop (ms.length - 50) ms ++ [m]).drop 1
          else List.drop (ms.length - 50) ms ++ [m]) = _
    by_cases h : ms.length < 50
    · have h0 : ms.length - 50 = 0 := by omega
      rw [h0, List.drop_zero]
      have hlen : ¬ 50 < (ms ++ [m]).length := by
        rw [List.length_append, List.length_singleton]; omega
      rw [if_neg hlen]
      have h1 : (ms ++ [m]).length - 50 = 0 := by
        rw [List.length_append, List.length_singleton]; omega
      rw [h1, List.drop_zero]
    · have hd : (List.drop (ms.length - 50) ms).length = 50 := by
        simp only [List.length_drop]; omega
      have hlen : 50 < (List.drop (ms.length - 50) ms ++ [m]).length := by
        rw [List.length_append, hd, List.length_singleton]; omega
      rw [if_pos hlen,
        List.drop_append_of_le_length
          (by rw [hd]; omega : (1 : Nat) ≤ (List.drop (ms.length - 50) ms).length),
        List.drop_drop]
      have e1 : ms.length - 50 + 1 = ms.length + 1 - 50 := by omega
      have e2 : (ms ++ [m]).length - 50 = ms.length + 1 - 50 := by
        rw [List.length_append, List.length_singleton]
      rw [e1, e2, List.drop_append_of_le_length (by omega : ms.length + 1 - 50 ≤ ms.length)]

/-- After `add_user_to_config`, whatever branch ran, the member is in the
guild's allow-list. -/
theorem mem_after_adduser (st : ConfigState) (g : String) (u : Int) :
    ∃ cfg, (add_user_to_config u g st).2.configs.lookup g = some cfg ∧
      u ∈ cfg.allowed_users := by
  unfold add_user_to_config
  cases hl : st.configs.lookup g with
  | some c0 =>
    simp only [hl, Option.isSome_some, if_true, Option.getD_some]
    by_cases hm : c0.allowed_users.contains u = true
    · exact ⟨c0, by simp only [hm, if_true]; exact hl, by simpa using hm⟩
    · have hm' : c0.allowed_users.contains u = false := by simpa using hm
      refine ⟨⟨c0.channel_id, c0.allowed_users ++ [u]⟩, ?_, by simp⟩
      simp only [hm', Bool.false_eq_true, if_false]
      exact lookup_dictSet_self _ _ _
  | none =>
    simp only [hl, Option.isSome_none, Bool.false_eq_true, if_false,
      lookup_dictSet_self, Option.getD_some, List.contains_nil]
    exact ⟨⟨none, [u]⟩, by simp [lookup_dictSet_self], by simp⟩

theorem lexLe_total (a : List Char) : ∀ b, lexLe a b = true ∨ lexLe b a = true := by
  induction a with
  | nil => intro b; left; rfl
  | cons x xs ih =>
    intro b
    cases b with
    | nil => right; rfl
    | cons y ys =>
      by_cases hxy : x < y
      · left; simp [lexLe, hxy]
      · by_cases hyx : y < x
        · right; simp [lexLe, hyx]
        · rcases ih ys with h | h
          · left; simp [lexLe, hxy, hyx, h]
          · right; simp [lexLe, hyx, hxy, h]

theorem lexLe_trans : ∀ (a b c : List Char), lexLe a b = true → lexLe b c = true →
    lexLe a c = true := by
  intro a
  induction a with
  | nil => intro b c _ _; rfl
  | cons x xs ih =>
    intro b c hab hbc
    cases b with
    | nil => simp [lexLe] at hab
    | cons y ys =>
      cases c with
      | nil => simp [lexLe] at hbc
      | cons z zs =>
        simp only [lexLe] at hab hbc ⊢
        by_cases hxy : x < y
        · by_cases hyz : y < z
          · have hxz : x < z := lt_trans hxy hyz
            simp [hxz]
          · by_cases hzy : z < y
            · simp [hyz, hzy] at hbc
            · have hey : y = z := le_antisymm (not_lt.mp hzy) (not_lt.mp hyz)
              subst hey
              simp [hxy]
        · by_cases hyx : y < x
          · simp [hxy, hyx] at hab
          · have hex : x = y := le_antisymm (not_lt.mp hyx) (not_lt.mp hxy)
            subst hex
            simp only [lt_irrefl, if_false] at hab
            by_cases hxz : x < z
            · simp [hxz]
            · by_cases hzx : z < x
              · simp [hxz, hzx] at hbc
              · simp only [if_neg hxz, if_neg hzx] at hbc ⊢
                exact ih ys zs hab hbc

instance : IsTotal (Int × String) channelSortKeyLe :=
  ⟨fun a b => lexLe_total (pyLower a.2).data (pyLower b.2).data⟩

instance : IsTrans (Int × String) channelSortKeyLe :=
  ⟨fun _ _ _ hab hbc => lexLe_trans _ _ _ hab hbc⟩

/-! Claim theorems -/

/-- C2: every Bridge-backed endpoint (get_voice_channels, send_message,
set_vc_channel, force_join_vc), called while `bot_instance` is absent or
not ready, replies "Bot is offline." with status 400 and returns the
state unchanged — so nothing is scheduled on the loop, the ConfigStore
and its file are unmodified, no message is sent and no voice connection
is made. -/
theorem bridged_endpoints_offline (s : SysState)
    (h : ∀ e, s.bot_instance = some e → e.ready = false)
    (gidArg guild_id channel_id content image_url : Option String) :
    get_voice_channels_api gidArg s = (offlineResp, s) ∧
    send_message channel_id content image_url s = (offlineResp, s) ∧
    set_vc_channel_api guild_id channel_id s = (offlineResp, s) ∧
    force_join_vc_api guild_id channel_id s = (offlineResp, s) := by
  cases hb : s.bot_instance with
  | none =>
    refine ⟨?_, ?_, ?_, ?_⟩ <;>
      simp [get_voice_channels_api, send_message, set_vc_channel_api,
        force_join_vc_api, hb]
  | some e =>
    have hr : e.ready = false := h e hb
    refine ⟨?_, ?_, ?_, ?_⟩ <;>
      simp [get_voice_channels_api, send_message, set_vc_channel_api,
        force_join_vc_api, hb, hr]

/-- C2 witness: with no bot instance the endpoints return the offline
response and the untouched state. -/
theorem bridged_endpoints_offline_witness :
    get_voice_channels_api (some "1") ⟨none, [], none, 0, [], []⟩ =
      (offlineResp, ⟨none, [], none, 0, [], []⟩) ∧
    send_message (some "2") (some "hi") none ⟨none, [], none, 0, [], []⟩ =
      (offlineResp, ⟨none, [], none, 0, [], []⟩) ∧
    set_vc_channel_api (some "1") (some "2") ⟨none, [], none, 0, [], []⟩ =
      (offlineResp, ⟨none, [], none, 0, [], []⟩) ∧
    force_join_vc_api (some "1") (some "2") ⟨none, [], none, 0, [], []⟩ =
      (offlineResp, ⟨none, [], none, 0, [], []⟩) :=
  bridged_endpoints_offline ⟨none, [], none, 0, [], []⟩ (fun _ he => nomatch he)
    (some "1") (some "1") (some "2") (some "hi") none

/-- C7: the voice-channel listing returns exactly the guild's voice
channels on which the bot member has both the view and the connect
permission (a permutation of that filtered list, with the "🔊 "-prefixed
name the handler emits), sorted case-insensitively by name; on a guild
with channels "B" and "a", both permitted, "a" is listed before "B". -/
theorem get_voice_channels_spec (vcs : List PyVoiceChannel) :
    ((get_voice_channels_list vcs).Perm
      ((vcs.filter fun c => c.view_channel && c.voice_connect).map
        fun c => (c.id, "🔊 " ++ c.name))) ∧
    (get_voice_channels_list vcs).Sorted channelSortKeyLe ∧
    get_voice_channels_list [⟨1, "B", true, true⟩, ⟨2, "a", true, true⟩] =
      [(2, "🔊 a"), (1, "🔊 B")] := by
  refine ⟨?_, ?_, by decide⟩
  · exact List.perm_insertionSort channelSortKeyLe _
  · exact List.sorted_insertionSort channelSortKeyLe _

/-- C3: the LogSink is FIFO-capped at 50: for every sequence of appends
starting from the empty `global_logs`, the list is exactly the last
min(n, 50) of the appended entries in insertion order — so it never
exceeds 50 entries, the oldest entry is evicted first, and after 51
appends entry #1 is gone while entries #2..#51 remain in order
(`msgs.drop 1` at length 51). -/
theorem log_sink_fifo_cap {α : Type _} (msgs : List α) :
    run_log msgs = msgs.drop (msgs.length - 50) ∧ (run_log msgs).length ≤ 50 := by
  refine ⟨run_log_eq_drop msgs, ?_⟩
  rw [run_log_eq_drop, List.length_drop]
  omega

/-- C4: adding an already-allowed user fails with AlreadyAllowed and
leaves the whole configuration state — in-memory allow-list and flushed
file — unchanged (first conjunct); hence adding the same user twice
returns AlreadyAllowed on the second call with the state, and so the set
size, unchanged (second conjunct). -/
theorem adduser_already_allowed :
    (∀ (st : ConfigState) (g : String) (u : Int) (cfg : GuildConfig),
        st.configs.lookup g = some cfg → u ∈ cfg.allowed_users →
        add_user_to_config u g st = (.alreadyAllowed, st)) ∧
    (∀ (st : ConfigState) (g : String) (u : Int),
        add_user_to_config u g (add_user_to_config u g st).2 =
          (.alreadyAllowed, (add_user_to_config u g st).2)) := by
  have main : ∀ (st : ConfigState) (g : String) (u : Int) (cfg : GuildConfig),
      st.configs.lookup g = some cfg → u ∈ cfg.allowed_users →
      add_user_to_config u g st = (.alreadyAllowed, st) := by
    intro st g u cfg hl hm
    have hc : cfg.allowed_users.contains u = true := by simpa using hm
    unfold add_user_to_config
    simp only [hl, Option.isSome_some, if_true, Option.getD_some, hc]
  refine ⟨main, ?_⟩
  intro st g u
  obtain ⟨cfg, hl, hm⟩ := mem_after_adduser st g u
  exact main _ g u cfg hl hm

/-- C4 witness: with user 100 already in guild "42"'s allow-list, the add
fails with AlreadyAllowed and the state is returned unchanged. -/
theorem adduser_already_allowed_witness :
    add_user_to_config 100 "42" ⟨[("42", ⟨none, [100]⟩)], none⟩ =
      (.alreadyAllowed, ⟨[("42", ⟨none, [100]⟩)], none⟩) :=
  adduser_already_allowed.1 ⟨[("42", ⟨none, [100]⟩)], none⟩ "42" 100 ⟨none, [100]⟩
    rfl (by decide)

/-- C5: the permission predicate returns true exactly when the actor has
the administrator permission or is in the stored allow-list of the given
guild (it is a pure function of the store); and in the concrete scenario,
after adding user 100 to guild "42" the check passes for guild "42" and
fails for guild "99". -/
theorem is_admin_or_allowed_spec :
    (∀ (adm : Bool) (aid : Int) (g : String) (cfgs : Configs),
        is_admin_or_allowed adm aid g cfgs = true ↔
          adm = true ∨ ∃ cfg, cfgs.lookup g = some cfg ∧ aid ∈ cfg.allowed_users) ∧
    is_admin_or_allowed false 100 "42"
      (add_user_to_config 100 "42" ⟨[], none⟩).2.configs = true ∧
    is_admin_or_allowed false 100 "99"
      (add_user_to_config 100 "42" ⟨[], none⟩).2.configs = false := by
  refine ⟨?_, by decide, by decide⟩
  intro adm aid g cfgs
  unfold is_admin_or_allowed
  cases adm with
  | true => simp
  | false =>
    simp only [Bool.false_eq_true, if_false, false_or]
    cases h : cfgs.lookup g with
    | none => simp
    | some cfg => simp [h]

/-- C8: the credential update rewrites exactly the lines starting with
`DISCORD_TOKEN=` to the new token line, keeps every other line unchanged
in its place (the map preserves positions and order), appends the token
line (preceded by a newline) when no line matched, and on a missing file
produces the default comment line plus the new token line. -/
theorem update_dotenv_token_spec (tok : String) :
    update_dotenv_token tok none =
      ["# .env file generated by bot panel\n", "DISCORD_TOKEN=" ++ tok ++ "\n"] ∧
    (∀ lines, (lines.any fun l => pyStartsWith l "DISCORD_TOKEN=") = true →
      update_dotenv_token tok (some lines) =
        lines.map fun l =>
          if pyStartsWith l "DISCORD_TOKEN=" then "DISCORD_TOKEN=" ++ tok ++ "\n" else l) ∧
    (∀ lines, (lines.any fun l => pyStartsWith l "DISCORD_TOKEN=") = false →
      update_dotenv_token tok (some lines) =
        lines ++ ["\nDISCORD_TOKEN=" ++ tok ++ "\n"]) := by
  refine ⟨rfl, ?_, ?_⟩
  · intro lines h
    simp [update_dotenv_token, h]
  · intro lines h
    simp only [update_dotenv_token, Option.getD_some, h, Bool.false_eq_true, if_false]
    congr 1
    have hall : ∀ l ∈ lines, pyStartsWith l "DISCORD_TOKEN=" = false := by
      intro l hl
      by_contra hc
      have ht : (lines.any fun l => pyStartsWith l "DISCORD_TOKEN=") = true :=
        List.any_eq_true.mpr ⟨l, hl, by simpa using hc⟩
      rw [ht] at h
      cases h
    calc lines.map (fun l => if pyStartsWith l "DISCORD_TOKEN=" then
            "DISCORD_TOKEN=" ++ tok ++ "\n" else l)
        = lines.map id := by
          apply List.map_congr_left
          intro l hl
          simp [hall l hl]
      _ = lines := List.map_id lines

/-- C8 witness: an existing token line is rewritten in place; with no
token line the token is appended after a blank separator line. -/
theorem update_dotenv_token_spec_witness :
    update_dotenv_token "TOK" (some ["USER=alice\n", "DISCORD_TOKEN=old\n"]) =
      ["USER=alice\n", "DISCORD_TOKEN=TOK\n"] ∧
    update_dotenv_token "TOK" (some ["USER=alice\n"]) =
      ["USER=alice\n", "\nDISCORD_TOKEN=TOK\n"] := by
  constructor
  · rw [(update_dotenv_token_spec "TOK").2.1 ["USER=alice\n", "DISCORD_TOKEN=old\n"]
      (by decide)]
    decide
  · rw [(update_dotenv_token_spec "TOK").2.2 ["USER=alice\n"] (by decide)]
    decide

/-- json.loads at the counterexample input: the text "[]" parses
successfully to the empty JSON array — a valid JSON value that is not an
object. -/
def jsonLoadsArray : String → Option PyJson :=
  fun s => if s = "[]" then some .nonObj else none

/-- C6 counterexample: a corrupted config file holding "[]" is valid
JSON, so no JSONDecodeError is raised; `configs.keys()` then raises
AttributeError out of load_configs — corruption can crash startup,
refuting the claim that it never does. -/
theorem load_configs_crash_on_array :
    load_configs jsonLoadsArray (.content "[]") = .error () := rfl

/-- C6 (amended): load_configs returns the empty mapping for a missing
or empty file; a file that fails to parse as JSON yields the corruption
warning and the empty mapping without raising; every guild entry of a
parsed JSON object gets `allowed_users` defaulted to the empty list when
absent; but a file of valid JSON that is not an object raises out of
load_configs (crashing startup). -/
theorem load_configs_spec (parse : String → Option PyJson) :
    load_configs parse .missing = .ok ([], false) ∧
    load_configs parse (.content "") = .ok ([], false) ∧
    (∀ s, s ≠ "" → parse s = none →
      load_configs parse (.content s) = .ok ([], true)) ∧
    (∀ s entries, s ≠ "" → parse s = some (.obj entries) →
      load_configs parse (.content s) =
        .ok (entries.map fun p =>
          (p.1, ⟨p.2.channel_id, p.2.allowed_users.getD []⟩), false)) ∧
    (∀ s, s ≠ "" → parse s = some .nonObj →
      load_configs parse (.content s) = .error ()) := by
  refine ⟨rfl, rfl, ?_, ?_, ?_⟩
  · intro s hs hp
    simp [load_configs, hs, hp]
  · intro s entries hs hp
    simp [load_configs, hs, hp, defaultGuildConfig]
  · intro s hs hp
    simp [load_configs, hs, hp]

/-- C6 witness: a file that fails to parse yields the warning and the
empty store; a parsed object entry without allowed_users gets the empty
default. -/
theorem load_configs_spec_witness :
    load_configs jsonLoadsArray (.content "oops") = .ok ([], true) :=
  (load_configs_spec jsonLoadsArray).2.2.1 "oops" (by decide) (by decide)

/-- C1 counterexample: with a running session and new token "NEWTOK",
restart starts the new session thread strictly before persisting the
token — the persist step does not precede the thread start, refuting the
claimed stop-persist-start order. -/
theorem restart_persist_not_before_start :
    precedes (restart_bot_api (some "NEWTOK")
        ⟨some 0, some ⟨"OLDTOK", 0⟩, some 0, some ["DISCORD_TOKEN=OLDTOK\n"], none, 1⟩).2.2
      Ev.startNewThread (.persistToken "NEWTOK") = true ∧
    precedes (restart_bot_api (some "NEWTOK")
        ⟨some 0, some ⟨"OLDTOK", 0⟩, some 0, some ["DISCORD_TOKEN=OLDTOK\n"], none, 1⟩).2.2
      (.persistToken "NEWTOK") Ev.startNewThread = false := by decide

/-- C1 (amended): for a fully running session S1 (instance and loop
globals set, S1's id below the freshness counter) and a non-empty token
T, restart performs: close S1 and clear all three globals, THEN start
the new session thread, THEN persist T — so every global referencing S1
is cleared before any reference to S2 is installed, the credential file
now carries T, and (for a non-placeholder T) the thread body installs a
session S2 distinct from S1 that runs with credential T; the persist
step follows the thread start rather than preceding it. -/
theorem restart_sequence (g : GlobalState) (s1 : SessionRef) (lp : Nat) (tok : String)
    (h1 : g.bot_instance = some s1) (h2 : g.bot_loop = some lp)
    (h3 : (tok == "") = false) (h4 : s1.sessionId < g.next_id) :
    (restart_bot_api (some tok) g).2.2 =
      [.closeOldSession, .clearGlobals, .logLine "🛑 Bot client stopped.",
       .startNewThread, .persistToken tok,
       .logLine "🔄 Bot restart initiated with new token..."] ∧
    (restart_bot_api (some tok) g).2.1.bot_instance = none ∧
    (restart_bot_api (some tok) g).2.1.bot_loop = none ∧
    (restart_bot_api (some tok) g).2.1.bot_thread = some g.next_id ∧
    (restart_bot_api (some tok) g).2.1.pending_run = some tok ∧
    (restart_bot_api (some tok) g).2.1.dotenv =
      some (update_dotenv_token tok g.dotenv) ∧
    (containsSub tok.data "YOUR_BOT_TOKEN_HERE".data = false →
      (run_bot_client tok (restart_bot_api (some tok) g).2.1).1.bot_instance =
        some ⟨tok, g.next_id + 1⟩ ∧ g.next_id + 1 ≠ s1.sessionId) := by
  refine ⟨?_, ?_, ?_, ?_, ?_, ?_, ?_⟩ <;>
    simp [restart_bot_api, stop_bot_client, run_bot_client, pyFalsy, h1, h2, h3]
  intro hph
  constructor
  · simp [hph, h3]
  · omega

/-- C1 amended-claim witness: a concrete running session restarted with
"NEWTOK" ends with the old instance cleared and the new session holding
the new token. -/
theorem restart_sequence_witness :
    (restart_bot_api (some "NEWTOK")
        ⟨some 0, some ⟨"OLDTOK", 3⟩, some 0, none, none, 5⟩).2.1.bot_instance = none :=
  (restart_sequence ⟨some 0, some ⟨"OLDTOK", 3⟩, some 0, none, none, 5⟩
    ⟨"OLDTOK", 3⟩ 0 "NEWTOK" rfl rfl (by decide) (by decide)).2.1

/-- C10: /api/restart accepts any non-empty token without validating it
and without checking readiness: in every lifecycle state it returns
success (200), stops any current client, starts the new session thread
(the token is pending for the thread body) and persists the token to the
credential file; the trace contains the thread start and the persist. A
placeholder token is rejected only later inside the thread body, which
logs the configuration error and installs no bot — so from a stopped or
fully-running state the system is left Offline (`bot_instance = none`)
while the placeholder value stays persisted. -/
theorem restart_accepts_any_nonempty_token (g : GlobalState) (tok : String)
    (h : (tok == "") = false) :
    (restart_bot_api (some tok) g).1.success = true ∧
    (restart_bot_api (some tok) g).1.status = 200 ∧
    (restart_bot_api (some tok) g).2.1.pending_run = some tok ∧
    ((restart_bot_api (some tok) g).2.1.bot_thread).isSome = true ∧
    (restart_bot_api (some tok) g).2.1.dotenv =
      some (update_dotenv_token tok g.dotenv) ∧
    Ev.startNewThread ∈ (restart_bot_api (some tok) g).2.2 ∧
    Ev.persistToken tok ∈ (restart_bot_api (some tok) g).2.2 ∧
    (containsSub tok.data "YOUR_BOT_TOKEN_HERE".data = true →
      (g.bot_instance = none ∨ g.bot_loop.isSome = true) →
      (run_bot_client tok (restart_bot_api (some tok) g).2.1).1.bot_instance = none ∧
      (run_bot_client tok (restart_bot_api (some tok) g).2.1).2 =
        [.logLine "❌ ERROR: DISCORD_TOKEN not configured. Bot will not run."]) := by
  cases hb : g.bot_instance with
  | none =>
    refine ⟨?_, ?_, ?_, ?_, ?_, ?_, ?_, ?_⟩ <;>
      simp [restart_bot_api, stop_bot_client, run_bot_client, pyFalsy, h, hb]
    intro hph
    simp [hph]
  | some s1 =>
    cases hl : g.bot_loop with
    | none =>
      refine ⟨?_, ?_, ?_, ?_, ?_, ?_, ?_, ?_⟩ <;>
        simp [restart_bot_api, stop_bot_client, run_bot_client, pyFalsy, h, hb, hl]
    | some lp =>
      refine ⟨?_, ?_, ?_, ?_, ?_, ?_, ?_, ?_⟩ <;>
        simp [restart_bot_api, stop_bot_client, run_bot_client, pyFalsy, h, hb, hl]
      intro hph
      simp [hph]

/-- C10 witness: restarting an offline system with the placeholder token
itself succeeds at the API level, and the thread body then refuses to
start a bot. -/
theorem restart_accepts_any_nonempty_token_witness :
    (restart_bot_api (some "YOUR_BOT_TOKEN_HERE")
        ⟨none, none, none, none, none, 0⟩).1.success = true :=
  (restart_accepts_any_nonempty_token ⟨none, none, none, none, none, 0⟩
    "YOUR_BOT_TOKEN_HERE" (by decide)).1

/-- C9 counterexample: no ConfigStore writer takes or releases any lock —
the shared-state effect traces of save_configs, the adduser mutation and
fetch_and_set contain no lock operation, refuting the claimed
single-lock mutual exclusion. -/
theorem config_writers_take_no_lock :
    save_configs_effects.contains .lockAcquire = false ∧
    add_user_effects.contains .lockAcquire = false ∧
    fetch_and_set_effects.contains .lockAcquire = false ∧
    save_configs_effects.contains .lockRelease = false ∧
    add_user_effects.contains .lockRelease = false ∧
    fetch_and_set_effects.contains .lockRelease = false := by decide

/-- C9 (amended): ConfigStore writes are serialized not by a lock but by
the engine's single-threaded event loop: each writer's
read-modify-write-flush is a single await-free block, so under every
loop-level interleaving of the `.adduser` command with an HTTP-triggered
`fetch_and_set` racing on the same guild's record, both updates survive
(the added user is in the allow-list with the channel set) and the final
store is flushed. -/
theorem loop_serialized_no_lost_update :
    ∀ bs ∈ interleavings (addUserTask "1" 100) (setChannelTask "1" 555),
      (runBlocks bs ⟨[], none⟩).configs.lookup "1" =
        some ⟨some 555, [100]⟩ ∧
      (runBlocks bs ⟨[], none⟩).savedFile =
        some (runBlocks bs ⟨[], none⟩).configs := by decide

/-- C9 amended-claim witness: the interleaving that runs the adduser
block between the await and the mutation of fetch_and_set still keeps
both updates. -/
theorem loop_serialized_no_lost_update_witness :
    (runBlocks [.libAwait, .addUserBlock "1" 100, .setChannelBlock "1" 555]
        ⟨[], none⟩).configs.lookup "1" = some ⟨some 555, [100]⟩ :=
  (loop_serialized_no_lost_update
    [.libAwait, .addUserBlock "1" 100, .setChannelBlock "1" 555] (by decide)).1

end IdleBot
